import Mathlib

/-!
Shallow embedding of the `node-cluster-ipc` package.

The embedding covers the current `ClusterIpc` class (src/cluster-ipc.ts:
round-robin + sticky worker selection, publish, and the request/reply
tracker with timeouts) and, where a claim touches it, the legacy
`ClusterIPC` class (the earlier src/cluster-ipc.ts without request
support).

Modelling conventions:
* a JS `Map` is an insertion-ordered association list with `mapSet`,
  `mapGet`, `mapDelete`;
* `Object.values(cluster.workers || {})` is a list `ws : List Nat` of the
  live worker ids in their stable enumeration order, and the dictionary
  lookup `this.workers[id]` coerces `id` with `String(...)` and compares
  it against `String(worker.id)`;
* payloads are opaque: every operation is parametric in the payload type;
* promise settlements are logged as `(requestId, Settlement)` pairs so
  that "the future is settled at most once" is a statement about the log;
* the single-threaded event loop is a fold of `applyEvent` over a list of
  events (inbound envelopes and timer firings); a timer that has been
  cleared is absent from `timers` and can no longer fire.
-/

namespace ClusterIpcModel

/-- JS `Map.prototype.set`: overwrite in place if the key exists, else append. -/
def mapSet (m : List (String × β)) (k : String) (v : β) : List (String × β) :=
  match m with
  | [] => [(k, v)]
  | (k', v') :: rest => if k' = k then (k, v) :: rest else (k', v') :: mapSet rest k v

/-- JS `Map.prototype.get`. -/
def mapGet (m : List (String × β)) (k : String) : Option β :=
  match m with
  | [] => none
  | (k', v) :: rest => if k' = k then some v else mapGet rest k

/-- JS `Map.prototype.delete`. -/
def mapDelete (m : List (String × β)) (k : String) : List (String × β) :=
  match m with
  | [] => []
  | (k', v) :: rest => if k' = k then mapDelete rest k else (k', v) :: mapDelete rest k

/-- The `workerId?: number | string` argument of `send`/`request`/`getWorker`. -/
inductive WKey where
  | num (n : Nat)
  | str (s : String)
deriving DecidableEq

/-- JS property-key / `String(...)` coercion of a `number | string` value. -/
def WKey.toStr : WKey → String
  | .num n => toString n
  | .str s => s

/-- `String(id)` where `id` may be `undefined` (the call `this.workerMap.set(String(id), ...)`
is reached with `id === undefined` on every no-argument selection). -/
def stringOfId : Option WKey → String
  | none => "undefined"
  | some k => k.toStr

/-- The mutable selection state of `ClusterIpc`: the round-robin cursor
`workerIndex` and the sticky map `workerMap` from stringified keys to worker ids. -/
structure DispState where
  workerIndex : Nat
  workerMap : List (String × Nat)
deriving DecidableEq

/-- The dictionary access `(this.workers as NodeJS.Dict<Worker>)[id]`:
a live worker whose stringified id equals `String(id)`. -/
def directLookup (ws : List Nat) (k : WKey) : Option Nat :=
  ws.find? (fun w => toString w == k.toStr)

/-- The sticky lookup: `this.workerMap.get(String(id))` followed by
`(this.workers as NodeJS.Dict<Worker>)[workerId]`. -/
def stickyLookup (ws : List Nat) (m : List (String × Nat)) (k : WKey) : Option Nat :=
  match mapGet m k.toStr with
  | some wid => ws.find? (fun w => w == wid)
  | none => none

/-- The early-return part of `ClusterIpc.getWorker`: the direct dictionary hit,
else the sticky hit, both only when an id argument was supplied. -/
def hitOf (ws : List Nat) (m : List (String × Nat)) : Option WKey → Option Nat
  | some k => (directLookup ws k).orElse (fun _ => stickyLookup ws m k)
  | none => none

/-- Equality of `Except` results is decidable (used to evaluate the model on
concrete inputs). -/
instance instDecEqExcept {ε α : Type} [DecidableEq ε] [DecidableEq α] :
    DecidableEq (Except ε α) := fun x y =>
  match x, y with
  | .ok a, .ok b =>
      if h : a = b then isTrue (by rw [h]) else isFalse (by intro hh; cases hh; exact h rfl)
  | .ok _, .error _ => isFalse (by intro hh; cases hh)
  | .error _, .ok _ => isFalse (by intro hh; cases hh)
  | .error e, .error f =>
      if h : e = f then isTrue (by rw [h]) else isFalse (by intro hh; cases hh; exact h rfl)

/-- `ClusterIpc.getWorker(id?)`. Throws `'No workers available'` when the live
set is empty; otherwise returns the direct or sticky hit without mutation, or
falls back to round-robin, advancing the cursor and recording
`workerMap.set(String(id), worker.id)`. The `.error "TypeError..."` arm is the
crash `worker.id` would raise when the cursor is out of range (`workers[this.workerIndex]`
is `undefined`); the cursor advance on line 146 has happened by then. -/
def getWorker (ws : List Nat) (id : Option WKey) (s : DispState) :
    Except String Nat × DispState :=
  if ws.length = 0 then (.error "No workers available", s)
  else
    match hitOf ws s.workerMap id with
    | some w => (.ok w, s)
    | none =>
      match ws.get? s.workerIndex with
      | some w =>
        (.ok w, ⟨(s.workerIndex + 1) % ws.length, mapSet s.workerMap (stringOfId id) w⟩)
      | none =>
        (.error "TypeError: worker is undefined",
         { s with workerIndex := (s.workerIndex + 1) % ws.length })

/-- The `IpcMessage` envelope of `ClusterIpc`: channel, payload, optional
request correlation id, optional reply flag. -/
structure IpcMessage (α : Type) where
  channel : String
  data : α
  requestId : Option String := none
  isReply : Option Bool := none
deriving DecidableEq

/-- JS truthiness of the optional `isReply` field. -/
def boolTruthy : Option Bool → Bool
  | some b => b
  | none => false

/-- JS truthiness of the optional `requestId` field (`undefined` and the
empty string are falsy). -/
def strTruthy : Option String → Bool
  | some s => !(s == "")
  | none => false

/-- `ClusterIpc.send(channel, data, workerId?)` in the primary role: builds a
plain envelope, targets `getWorker(workerId)`, and transmits. The exception
`getWorker` throws propagates to the caller. -/
def sendPrimary (ws : List Nat) (s : DispState) (channel : String) (data : α)
    (workerId : Option WKey) : Except String (Nat × IpcMessage α) × DispState :=
  match getWorker ws workerId s with
  | (.ok w, s') => (.ok (w, { channel := channel, data := data }), s')
  | (.error e, s') => (.error e, s')

/-- `ClusterIpc.publish(channel, data)`. `isPrimary` is the captured
`cluster.isPrimary || cluster.isMaster` fact. On success the result is the
transmissions to every live worker; otherwise the thrown error. -/
def publish (isPrimary : Bool) (ws : List Nat) (channel : String) (data : α) :
    Except String (List (Nat × IpcMessage α)) :=
  if !isPrimary then
    .error "Method \"publish\" can only be called from the primary process"
  else
    let message : IpcMessage α := { channel := channel, data := data }
    if ws.length ≠ 0 then .ok (ws.map (fun w => (w, message)))
    else .error "No workers available"

/-- A recorded settlement of a request's promise. -/
inductive Settlement (α : Type) where
  | resolved (v : α)
  | rejected (err : String)
deriving DecidableEq

/-- The request-tracking state of a `ClusterIpc` instance:
`pendingRequests` is the `Map` of in-flight request entries, `timers` the
set of armed (not yet cleared, not yet fired) timeout timers, and
`settlements` the log of promise settlements, each tagged with its request id. -/
structure ReqTrackerState (α : Type) where
  pendingRequests : List (String × Unit)
  timers : List (String × Nat)
  settlements : List (String × Settlement α)
deriving DecidableEq

/-- `ClusterIpcOptions`: `requestTimeout?: number`. -/
structure ClusterIpcOptions where
  requestTimeout : Option Nat := none
deriving DecidableEq

/-- The TS default-parameter semantics of
`constructor(private options: ClusterIpcOptions = { requestTimeout: 5000 })`:
the default object is used only when the argument is omitted entirely. -/
def defaultedOptions : Option ClusterIpcOptions → ClusterIpcOptions
  | none => { requestTimeout := some 5000 }
  | some o => o

/-- Node's `setTimeout` delay coercion: an `undefined` or out-of-range delay
is replaced by 1 ms. -/
def setTimeoutDelay : Option Nat → Nat
  | none => 1
  | some d => if 1 ≤ d ∧ d ≤ 2147483647 then d else 1

/-- `ClusterIpc.request(channel, data, workerId?)` in the primary role, run for
a fresh `requestId` up to its first suspension: arm the timeout timer, insert
the pending entry, then try `getWorker`/`send`; on a synchronous throw, clear
the timer, delete the entry and reject the promise with the thrown error.
Returns the tracker state, the selection state, and the transmissions made. -/
def requestPrimary (opts : ClusterIpcOptions) (ws : List Nat) (disp : DispState)
    (s : ReqTrackerState α) (channel : String) (data : α) (workerId : Option WKey)
    (requestId : String) : ReqTrackerState α × DispState × List (Nat × IpcMessage α) :=
  let delay := setTimeoutDelay opts.requestTimeout
  let s1 : ReqTrackerState α :=
    { s with timers := mapSet s.timers requestId delay,
             pendingRequests := mapSet s.pendingRequests requestId () }
  match getWorker ws workerId disp with
  | (.ok w, disp') =>
      (s1, disp', [(w, { channel := channel, data := data, requestId := some requestId })])
  | (.error e, disp') =>
      ({ s1 with timers := mapDelete s1.timers requestId,
                 pendingRequests := mapDelete s1.pendingRequests requestId,
                 settlements := s1.settlements ++ [(requestId, .rejected e)] },
       disp', [])

/-- A consumer-visible event emitted by `ClusterIpc.handleMessage`. The
`request` event's reply closure captures `msg.channel`, `msg.requestId!` and
`worker.id`. -/
inductive Emitted (α : Type) where
  | message (channel : String) (data : α)
  | request (channel : String) (data : α) (requestId : String) (replyWorkerId : Nat)
deriving DecidableEq

/-- The reply branch of `ClusterIpc.handleMessage`: if a pending entry for the
id exists, clear its timer, delete the entry and resolve its promise with the
reply payload; otherwise do nothing. -/
def resolveReply (id : String) (v : α) (s : ReqTrackerState α) : ReqTrackerState α :=
  match mapGet s.pendingRequests id with
  | some _ =>
      { s with timers := mapDelete s.timers id,
               pendingRequests := mapDelete s.pendingRequests id,
               settlements := s.settlements ++ [(id, .resolved v)] }
  | none => s

/-- `ClusterIpc.handleMessage(msg, worker)`: classify the inbound envelope as a
reply (`msg.isReply && msg.requestId`), a request (`msg.requestId`), or a plain
message, returning the new tracker state and the events emitted. -/
def handleMessage (msg : IpcMessage α) (workerId : Nat) (s : ReqTrackerState α) :
    ReqTrackerState α × List (Emitted α) :=
  if boolTruthy msg.isReply && strTruthy msg.requestId then
    (resolveReply (msg.requestId.getD "") msg.data s, [])
  else if strTruthy msg.requestId then
    (s, [.request msg.channel msg.data (msg.requestId.getD "") workerId])
  else
    (s, [.message msg.channel msg.data])

/-- The body of the `setTimeout` callback armed by `request()` for `id`: if the
pending entry is still present, delete it and reject the promise with
`'Request timeout'`. -/
def timeoutCallback (id : String) (s : ReqTrackerState α) : ReqTrackerState α :=
  match mapGet s.pendingRequests id with
  | some _ =>
      { s with pendingRequests := mapDelete s.pendingRequests id,
               settlements := s.settlements ++ [(id, .rejected "Request timeout")] }
  | none => s

/-- An asynchronous event delivered to the process's single logical thread:
either an inbound envelope (with the id of the worker it came from) handed to
`handleMessage`, or the elapsing of a request's timeout timer. -/
inductive TrkEvent (α : Type) where
  | inbound (msg : IpcMessage α) (workerId : Nat)
  | timerElapses (id : String)

/-- Event-loop semantics: an inbound envelope runs `handleMessage`; an elapsed
timer runs its callback only if it is still armed (a cleared timer never
fires), and firing disarms it. -/
def applyEvent (s : ReqTrackerState α) : TrkEvent α → ReqTrackerState α
  | .inbound msg w => (handleMessage msg w s).1
  | .timerElapses id =>
      if (mapGet s.timers id).isSome then
        timeoutCallback id { s with timers := mapDelete s.timers id }
      else s

/-- How many entries of a settlement log are tagged with `id`. -/
def countFor (l : List (String × Settlement α)) (id : String) : Nat :=
  (l.filter (fun p => p.1 == id)).length

/-- How many times the promise of request `id` has been settled. -/
def settleCount (s : ReqTrackerState α) (id : String) : Nat :=
  countFor s.settlements id

/-- The settlement invariant maintained by the event loop for a request id:
while the pending entry is present its promise is unsettled, and the promise is
never settled more than once. -/
def SettleInv (s : ReqTrackerState α) (id : String) : Prop :=
  (mapGet s.pendingRequests id = none ∨ settleCount s id = 0) ∧ settleCount s id ≤ 1

/-- The envelope of the legacy `ClusterIPC` class: channel and payload only. -/
structure IPCMessage (α : Type) where
  channel : String
  data : α
deriving DecidableEq

/-- A consumer-visible event of the legacy `ClusterIPC` class. -/
inductive LegacyEmitted (α : Type) where
  | message (channel : String) (data : α) (workerId : Nat)
deriving DecidableEq

/-- The `'message'` listener `ClusterIPC.setupPrimary` attaches to each online
worker: it re-emits `(msg.channel, msg.data, worker)`. -/
def primaryOnMessage (msg : IPCMessage α) (workerId : Nat) : LegacyEmitted α :=
  .message msg.channel msg.data workerId

/-- `n` consecutive `send(channel, data)` calls (no worker id) in the primary
role over a fixed live set, collecting each call's chosen target. -/
def runSends (ws : List Nat) (channel : String) (data : α) :
    Nat → DispState → List (Except String Nat) × DispState
  | 0, s => ([], s)
  | n + 1, s =>
      let r := sendPrimary ws s channel data none
      let rest := runSends ws channel data n r.2
      (r.1.map (fun p => p.1) :: rest.1, rest.2)

/-- A sequence of selections that all use the same key `k`, one per element of
`wss` (the live set visible to each call, read afresh per call). -/
def selectSeq (k : WKey) : List (List Nat) → DispState → List (Except String Nat) × DispState
  | [], s => ([], s)
  | ws :: rest, s =>
      let r := getWorker ws (some k) s
      let rs := selectSeq k rest r.2
      (r.1 :: rs.1, rs.2)

/-! ### Association-list lemmas -/

theorem mapGet_mapSet_self (m : List (String × β)) (k : String) (v : β) :
    mapGet (mapSet m k v) k = some v := by
  induction m with
  | nil => simp [mapSet, mapGet]
  | cons p rest ih =>
    obtain ⟨k', v'⟩ := p
    by_cases h : k' = k
    · simp [mapSet, mapGet, h]
    · simp [mapSet, mapGet, h, ih]

theorem mapGet_mapSet_ne (m : List (String × β)) (k k' : String) (v : β) (h : k' ≠ k) :
    mapGet (mapSet m k v) k' = mapGet m k' := by
  induction m with
  | nil => simp [mapSet, mapGet, Ne.symm h]
  | cons p rest ih =>
    obtain ⟨a, b⟩ := p
    by_cases ha : a = k
    · subst ha
      simp [mapSet, mapGet, Ne.symm h]
    · simp only [mapSet, if_neg ha, mapGet, ih]

theorem mapGet_mapDelete_self (m : List (String × β)) (k : String) :
    mapGet (mapDelete m k) k = none := by
  induction m with
  | nil => simp [mapDelete, mapGet]
  | cons p rest ih =>
    obtain ⟨a, b⟩ := p
    by_cases ha : a = k
    · simp [mapDelete, ha, ih]
    · simp [mapDelete, mapGet, ha, ih]

theorem mapGet_mapDelete_ne (m : List (String × β)) (k k' : String) (h : k' ≠ k) :
    mapGet (mapDelete m k) k' = mapGet m k' := by
  induction m with
  | nil => simp [mapDelete]
  | cons p rest ih =>
    obtain ⟨a, b⟩ := p
    by_cases ha : a = k
    · subst ha
      simp [mapDelete, mapGet, Ne.symm h, ih]
    · by_cases hb : a = k'
      · subst hb
        simp [mapDelete, mapGet, ha, h]
      · simp [mapDelete, mapGet, ha, hb, ih]

theorem mapDelete_of_get_none (m : List (String × β)) (k : String)
    (h : mapGet m k = none) : mapDelete m k = m := by
  induction m with
  | nil => simp [mapDelete]
  | cons p rest ih =>
    obtain ⟨a, b⟩ := p
    by_cases ha : a = k
    · simp [mapGet, ha] at h
    · simp only [mapGet, if_neg ha] at h
      simp [mapDelete, ha, ih h]

theorem mapDelete_mapSet_fresh (m : List (String × β)) (k : String) (v : β)
    (h : mapGet m k = none) : mapDelete (mapSet m k v) k = m := by
  induction m with
  | nil => simp [mapSet, mapDelete]
  | cons p rest ih =>
    obtain ⟨a, b⟩ := p
    by_cases ha : a = k
    · simp [mapGet, ha] at h
    · simp only [mapGet, if_neg ha] at h
      simp [mapSet, mapDelete, ha, ih h]

theorem find?_beq_self_of_mem (w : Nat) (ws : List Nat) (h : w ∈ ws) :
    ws.find? (fun x => x == w) = some w := by
  induction ws with
  | nil => cases h
  | cons a t ih =>
    by_cases ha : a = w
    · subst ha; simp
    · have hb : (a == w) = false := by simp [ha]
      rcases List.mem_cons.mp h with hw | hw
      · exact absurd hw.symm ha
      · simp [List.find?_cons, hb, ih hw]

theorem find?_beq_none_of_not_mem (w : Nat) (ws : List Nat) (h : w ∉ ws) :
    ws.find? (fun x => x == w) = none := by
  rw [List.find?_eq_none]
  intro x hx
  simp only [beq_iff_eq]
  intro hxw
  exact h (hxw ▸ hx)

theorem countFor_append_self (l : List (String × Settlement α)) (id : String)
    (x : Settlement α) : countFor (l ++ [(id, x)]) id = countFor l id + 1 := by
  simp [countFor, List.filter_append]

theorem countFor_append_ne (l : List (String × Settlement α)) (k id : String)
    (x : Settlement α) (h : k ≠ id) : countFor (l ++ [(k, x)]) id = countFor l id := by
  simp [countFor, List.filter_append, h]

/-! ### Preservation of the settlement invariant (claim C1) -/

theorem settleInv_resolveReply (rid : String) (v : α) (s : ReqTrackerState α) (id : String)
    (h : SettleInv s id) : SettleInv (resolveReply rid v s) id := by
  unfold resolveReply
  cases hp : mapGet s.pendingRequests rid with
  | none => exact h
  | some u =>
    by_cases hid : rid = id
    · subst hid
      have hc : settleCount s rid = 0 := by
        rcases h.1 with h0 | h0
        · rw [hp] at h0; cases h0
        · exact h0
      refine ⟨Or.inl ?_, ?_⟩
      · simpa using mapGet_mapDelete_self s.pendingRequests rid
      · simp [settleCount, countFor_append_self]
        simp [settleCount] at hc
        omega
    · refine ⟨?_, ?_⟩
      · rcases h.1 with h0 | h0
        · exact Or.inl (by simpa [mapGet_mapDelete_ne _ _ _ (Ne.symm hid)] using h0)
        · exact Or.inr (by simpa [settleCount, countFor_append_ne _ _ _ _ hid] using h0)
      · simpa [settleCount, countFor_append_ne _ _ _ _ hid] using h.2

theorem settleInv_timeoutCallback (rid : String) (s : ReqTrackerState α) (id : String)
    (h : SettleInv s id) : SettleInv (timeoutCallback rid s) id := by
  unfold timeoutCallback
  cases hp : mapGet s.pendingRequests rid with
  | none => exact h
  | some u =>
    by_cases hid : rid = id
    · subst hid
      have hc : settleCount s rid = 0 := by
        rcases h.1 with h0 | h0
        · rw [hp] at h0; cases h0
        · exact h0
      refine ⟨Or.inl ?_, ?_⟩
      · simpa using mapGet_mapDelete_self s.pendingRequests rid
      · simp [settleCount, countFor_append_self, settleCount] at hc ⊢
        omega
    · refine ⟨?_, ?_⟩
      · rcases h.1 with h0 | h0
        · exact Or.inl (by simpa [mapGet_mapDelete_ne _ _ _ (Ne.symm hid)] using h0)
        · exact Or.inr (by simpa [settleCount, countFor_append_ne _ _ _ _ hid] using h0)
      · simpa [settleCount, countFor_append_ne _ _ _ _ hid] using h.2

theorem handleMessage_fst (msg : IpcMessage α) (w : Nat) (s : ReqTrackerState α) :
    (handleMessage msg w s).1 = resolveReply (msg.requestId.getD "") msg.data s
    ∨ (handleMessage msg w s).1 = s := by
  unfold handleMessage
  by_cases h1 : (boolTruthy msg.isReply && strTruthy msg.requestId) = true
  · left; simp [h1]
  · right
    rw [if_neg h1]
    by_cases h2 : strTruthy msg.requestId = true
    · simp [h2]
    · simp [h2]

theorem settleInv_applyEvent (s : ReqTrackerState α) (e : TrkEvent α) (id : String)
    (h : SettleInv s id) : SettleInv (applyEvent s e) id := by
  cases e with
  | inbound msg w =>
    show SettleInv (handleMessage msg w s).1 id
    rcases handleMessage_fst msg w s with heq | heq
    · rw [heq]; exact settleInv_resolveReply _ _ _ _ h
    · rw [heq]; exact h
  | timerElapses tid =>
    show SettleInv (if (mapGet s.timers tid).isSome = true then
        timeoutCallback tid { s with timers := mapDelete s.timers tid } else s) id
    by_cases ht : (mapGet s.timers tid).isSome = true
    · rw [if_pos ht]
      exact settleInv_timeoutCallback tid { s with timers := mapDelete s.timers tid } id h
    · rw [if_neg ht]
      exact h

theorem settleInv_foldl (id : String) (events : List (TrkEvent α)) :
    ∀ s : ReqTrackerState α, SettleInv s id → SettleInv (events.foldl applyEvent s) id := by
  induction events with
  | nil => intro s h; exact h
  | cons e rest ih =>
    intro s h
    exact ih _ (settleInv_applyEvent s e id h)

theorem settleInv_requestPrimary (opts : ClusterIpcOptions) (ws : List Nat) (disp : DispState)
    (s0 : ReqTrackerState α) (c : String) (d : α) (wk : Option WKey) (rid : String)
    (hfresh : settleCount s0 rid = 0) :
    SettleInv (requestPrimary opts ws disp s0 c d wk rid).1 rid := by
  unfold requestPrimary
  cases hgw : getWorker ws wk disp with
  | mk r disp' =>
    cases r with
    | ok w =>
      refine ⟨Or.inr ?_, ?_⟩
      · simpa [settleCount] using hfresh
      · simpa [settleCount] using hfresh.le.trans (by omega)
    | error e =>
      refine ⟨Or.inl ?_, ?_⟩
      · simpa using mapGet_mapDelete_self (mapSet s0.pendingRequests rid ()) rid
      · simp [settleCount, countFor_append_self]
        simp [settleCount] at hfresh
        omega

/-! ### Claim C1 -/

/-- C1: for every pending request, at most one of the three settlement paths —
reply resolution, synchronous-send failure, and timeout firing — ever settles
its future. `requestPrimary` performs the synchronous-send-failure settlement
within its own atomic step; each later event (inbound envelopes, including
duplicate replies, and timeout firings) settles only after observing the
pending entry still present and removes it in the same step, so over any event
sequence the promise of a fresh request id is settled at most once. -/
theorem request_at_most_one_settlement (opts : ClusterIpcOptions) (ws : List Nat)
    (disp : DispState) (s0 : ReqTrackerState α) (c : String) (d : α) (wk : Option WKey)
    (rid : String) (events : List (TrkEvent α)) (hfresh : settleCount s0 rid = 0) :
    settleCount (events.foldl applyEvent (requestPrimary opts ws disp s0 c d wk rid).1) rid
      ≤ 1 :=
  (settleInv_foldl rid events _ (settleInv_requestPrimary opts ws disp s0 c d wk rid hfresh)).2

/-- Witness for C1: a concrete request that receives a reply and whose timer
then also elapses settles its future at most once. -/
theorem request_at_most_one_settlement_witness :
    settleCount
      ([TrkEvent.inbound
          { channel := "c", data := 42, requestId := some "r", isReply := some true } 1,
        TrkEvent.timerElapses "r"].foldl applyEvent
        (requestPrimary (defaultedOptions none) [1] ⟨0, []⟩
          (⟨[], [], []⟩ : ReqTrackerState Nat) "c" 42 none "r").1) "r" ≤ 1 :=
  request_at_most_one_settlement (defaultedOptions none) [1] ⟨0, []⟩ ⟨[], [], []⟩
    "c" 42 none "r" _ rfl

/-! ### Claim C2 -/

theorem get?_eq_getD (ws : List Nat) (j : Nat) (hj : j < ws.length) :
    ws.get? j = some (ws.getD j 0) := by
  rw [List.getD_eq_getElem?_getD, List.get?_eq_getElem?, List.getElem?_eq_getElem hj]
  rfl

theorem getWorker_none_step (ws : List Nat) (m : List (String × Nat)) (j : Nat)
    (hj : j < ws.length) :
    getWorker ws none ⟨j, m⟩
      = (.ok (ws.getD j 0), ⟨(j + 1) % ws.length, mapSet m "undefined" (ws.getD j 0)⟩) := by
  have hne : ¬ ws.length = 0 := by omega
  have hg : ws.get? j = some (ws.getD j 0) := get?_eq_getD ws j hj
  simp only [getWorker, if_neg hne, hitOf, hg, stringOfId]

theorem send_roundRobin_from (ws : List Nat) (c : String) (d : α) :
    ∀ (n j : Nat) (m : List (String × Nat)), j < ws.length →
      (runSends ws c d n ⟨j, m⟩).1
        = (List.range n).map (fun i => Except.ok (ws.getD ((j + i) % ws.length) 0)) := by
  intro n
  induction n with
  | zero => intro j m hj; simp [runSends]
  | succ n ih =>
    intro j m hj
    have hlen : 0 < ws.length := by omega
    have hj' : (j + 1) % ws.length < ws.length := Nat.mod_lt _ hlen
    rw [runSends]
    simp only [sendPrimary, getWorker_none_step ws m j hj, Except.map]
    rw [ih ((j + 1) % ws.length) _ hj']
    rw [List.range_succ_eq_map, List.map_cons, List.map_map]
    congr 1
    · rw [Nat.add_zero, Nat.mod_eq_of_lt hj]
    · have hfun : (fun i =>
            Except.ok (ε := String) (ws.getD (((j + 1) % ws.length + i) % ws.length) 0))
          = ((fun i => Except.ok (ws.getD ((j + i) % ws.length) 0)) ∘ Nat.succ) := by
        funext i
        simp only [Function.comp_apply]
        rw [Nat.mod_add_mod]
        have harg : j + 1 + i = j + Nat.succ i := by omega
        rw [harg]
      rw [hfun]

/-- C2: starting from a fresh instance (cursor 0), `n` `send()` calls in the
primary role with no explicit worker id over a live set fixed at `ws` target
the workers at positions `0, 1, ..., K-1, 0, 1, ...` of the stable
enumeration: the `i`-th call targets position `i % K`. Selection is cyclic and
no worker is starved. -/
theorem send_roundRobin_cyclic (ws : List Nat) (m : List (String × Nat)) (c : String)
    (d : α) (n : Nat) (hne : ws ≠ []) :
    (runSends ws c d n ⟨0, m⟩).1
      = (List.range n).map (fun i => Except.ok (ws.getD (i % ws.length) 0)) := by
  have hlen : 0 < ws.length := List.length_pos.mpr hne
  have h := send_roundRobin_from ws c d n 0 m hlen
  simpa using h

/-- Witness for C2: five no-target sends over the two-worker set `[5, 7]`
cycle `5, 7, 5, 7, 5`. -/
theorem send_roundRobin_cyclic_witness :
    (runSends [5, 7] "c" (0 : Nat) 5 ⟨0, []⟩).1
      = (List.range 5).map (fun i => Except.ok (([5, 7] : List Nat).getD (i % [5, 7].length) 0)) :=
  send_roundRobin_cyclic [5, 7] [] "c" 0 5 (by decide)

/-! ### Claim C3 -/

/-- C3: with zero live workers in the primary role, `send()`, `publish()` and
`request()` all fail synchronously with the `'No workers available'` error;
for `request()` the failure clears the already-armed deadline timer and removes
the pending entry (the final tracker state differs from the initial one only by
the recorded rejection — no dangling timer and no un-cleaned entry remain). -/
theorem no_workers_failures (s : DispState) (c : String) (d : α) (wk : Option WKey)
    (tr : ReqTrackerState α) (opts : ClusterIpcOptions) (rid : String)
    (hT : mapGet tr.timers rid = none) (hP : mapGet tr.pendingRequests rid = none) :
    (sendPrimary ([] : List Nat) s c d wk).1 = .error "No workers available"
    ∧ publish true ([] : List Nat) c d
        = (.error "No workers available" : Except String (List (Nat × IpcMessage α)))
    ∧ (requestPrimary opts ([] : List Nat) s tr c d wk rid).1
        = { tr with settlements := tr.settlements ++ [(rid, .rejected "No workers available")] } := by
  refine ⟨?_, ?_, ?_⟩
  · simp [sendPrimary, getWorker]
  · simp [publish]
  · simp only [requestPrimary, getWorker]
    simp [mapDelete_mapSet_fresh _ _ _ hT, mapDelete_mapSet_fresh _ _ _ hP]

/-- Witness for C3 at concrete inputs with an empty live-worker set. -/
theorem no_workers_failures_witness :
    (sendPrimary ([] : List Nat) ⟨0, []⟩ "c" (1 : Nat) none).1 = .error "No workers available"
    ∧ publish true ([] : List Nat) "c" (1 : Nat)
        = (.error "No workers available" : Except String (List (Nat × IpcMessage Nat)))
    ∧ (requestPrimary (defaultedOptions none) ([] : List Nat) ⟨0, []⟩
          (⟨[], [], []⟩ : ReqTrackerState Nat) "c" 1 none "r").1
        = ⟨[], [], [("r", .rejected "No workers available")]⟩ :=
  no_workers_failures ⟨0, []⟩ "c" 1 none ⟨[], [], []⟩ (defaultedOptions none) "r" rfl rfl

/-! ### Claim C4 -/

/-- C4: an inbound reply envelope whose `requestId` matches no pending request
(unknown id, already resolved, or already timed out) is a silent no-op: the
tracker state — pending table, timers and settlement log — is left unchanged
and nothing is emitted; in particular a second reply carrying the same id as an
already-resolved request does not re-resolve or throw. -/
theorem late_or_duplicate_reply_noop (c c' : String) (id : String) (v v' : α) (w w' : Nat)
    (hid : id ≠ "") :
    (∀ s : ReqTrackerState α, mapGet s.pendingRequests id = none →
        handleMessage { channel := c, data := v, requestId := some id, isReply := some true } w s
          = (s, []))
    ∧ ∀ t : ReqTrackerState α,
        handleMessage { channel := c', data := v', requestId := some id, isReply := some true } w'
            ((handleMessage { channel := c, data := v, requestId := some id, isReply := some true }
                w t).1)
          = ((handleMessage { channel := c, data := v, requestId := some id, isReply := some true }
                w t).1, []) := by
  have hbeq : (id == "") = false := by simpa using hid
  have hreply : ∀ (cc : String) (vv : α) (ww : Nat) (s : ReqTrackerState α),
      handleMessage { channel := cc, data := vv, requestId := some id, isReply := some true } ww s
        = (resolveReply id vv s, []) := by
    intro cc vv ww s
    simp [handleMessage, boolTruthy, strTruthy, hbeq]
  have hnone : ∀ (vv : α) (s : ReqTrackerState α), mapGet s.pendingRequests id = none →
      resolveReply id vv s = s := by
    intro vv s hs
    simp [resolveReply, hs]
  have hidem : ∀ (t : ReqTrackerState α),
      resolveReply id v' (resolveReply id v t) = resolveReply id v t := by
    intro t
    cases hp : mapGet t.pendingRequests id with
    | none => rw [hnone v t hp, hnone v' t hp]
    | some u =>
      have h2 : mapGet (resolveReply id v t).pendingRequests id = none := by
        unfold resolveReply
        rw [hp]
        simpa using mapGet_mapDelete_self t.pendingRequests id
      exact hnone v' _ h2
  refine ⟨?_, ?_⟩
  · intro s hs
    rw [hreply c v w s, hnone v s hs]
  · intro t
    simp only [hreply]
    rw [hidem t]

/-- Witness for C4: a reply for an unknown id is a no-op, and a second reply
for an id just resolved by a first reply is a no-op. -/
theorem late_or_duplicate_reply_noop_witness :
    handleMessage
        { channel := "c", data := (9 : Nat), requestId := some "x", isReply := some true } 1
        (⟨[], [], []⟩ : ReqTrackerState Nat) = (⟨[], [], []⟩, [])
    ∧ handleMessage
        { channel := "c2", data := (10 : Nat), requestId := some "x", isReply := some true } 2
        ((handleMessage
            { channel := "c", data := (9 : Nat), requestId := some "x", isReply := some true } 1
            (⟨[("x", ())], [("x", 5)], []⟩ : ReqTrackerState Nat)).1)
      = ((handleMessage
            { channel := "c", data := (9 : Nat), requestId := some "x", isReply := some true } 1
            (⟨[("x", ())], [("x", 5)], []⟩ : ReqTrackerState Nat)).1, []) := by
  constructor
  · exact (late_or_duplicate_reply_noop "c" "c2" "x" 9 10 1 2 (by decide)).1 ⟨[], [], []⟩ rfl
  · exact (late_or_duplicate_reply_noop "c" "c2" "x" 9 10 1 2 (by decide)).2
      ⟨[("x", ())], [("x", 5)], []⟩

/-! ### Claim C5 -/

theorem getWorker_sticky_hit (ws : List Nat) (k : WKey) (s : DispState) (w : Nat)
    (hmem : w ∈ ws) (hd : directLookup ws k = none)
    (hm : mapGet s.workerMap k.toStr = some w) :
    getWorker ws (some k) s = (.ok w, s) := by
  have hne : ¬ ws.length = 0 := by
    intro h0
    rw [List.length_eq_zero] at h0
    subst h0
    cases hmem
  have hsticky : stickyLookup ws s.workerMap k = some w := by
    unfold stickyLookup
    rw [hm]
    exact find?_beq_self_of_mem w ws hmem
  have hhit : hitOf ws s.workerMap (some k) = some w := by
    simp only [hitOf]
    rw [hd]
    simpa [Option.orElse] using hsticky
  simp only [getWorker, if_neg hne, hhit]

theorem selectSeq_sticky_const (k : WKey) (w : Nat) :
    ∀ (wss : List (List Nat)) (s : DispState),
      mapGet s.workerMap k.toStr = some w →
      (∀ ws ∈ wss, w ∈ ws ∧ directLookup ws k = none) →
      (selectSeq k wss s).1 = wss.map (fun _ => Except.ok w) ∧ (selectSeq k wss s).2 = s := by
  intro wss
  induction wss with
  | nil => intro s hm hl; exact ⟨rfl, rfl⟩
  | cons ws rest ih =>
    intro s hm hl
    have h1 := getWorker_sticky_hit ws k s w (hl ws (by simp)).1 (hl ws (by simp)).2 hm
    have h2 := ih s hm (fun x hx => hl x (by simp [hx]))
    simp [selectSeq, h1, h2.1, h2.2]

/-- C5 (amended): a sticky key resolves to the child its first successful
selection chose for as long as that child remains live AND the key does not
directly name a live worker id — the direct-id dictionary lookup precedes the
sticky lookup, so a key that collides with a live worker id overrides
stickiness (see the counterexample). Under that proviso: the first selection
(no direct hit, no sticky entry) picks the cursor's worker `w` and records the
sticky entry; every later selection with the key, over any live sets that keep
`w` live and key-collision-free, returns the same `w` without mutating
anything; and once the sticky target is no longer live, the next selection
falls back to round-robin and records a new sticky target for the key. -/
theorem sticky_key_selection (k : WKey) (ws0 : List Nat) (m : List (String × Nat))
    (j w : Nat)
    (hd0 : directLookup ws0 k = none) (hs0 : stickyLookup ws0 m k = none)
    (hj : ws0.get? j = some w) (wss : List (List Nat))
    (hlive : ∀ ws ∈ wss, w ∈ ws ∧ directLookup ws k = none) :
    (getWorker ws0 (some k) ⟨j, m⟩).1 = .ok w
    ∧ (selectSeq k wss (getWorker ws0 (some k) ⟨j, m⟩).2).1 = wss.map (fun _ => Except.ok w)
    ∧ ∀ (ws' : List Nat) (s : DispState) (w' : Nat),
        mapGet s.workerMap k.toStr = some w → w ∉ ws' → directLookup ws' k = none →
        ws'.get? s.workerIndex = some w' →
        getWorker ws' (some k) s
          = (.ok w', ⟨(s.workerIndex + 1) % ws'.length, mapSet s.workerMap k.toStr w'⟩) := by
  have hlen0 : ¬ ws0.length = 0 := by
    intro h0
    rw [List.length_eq_zero] at h0
    subst h0
    simp [List.get?] at hj
  have hhit0 : hitOf ws0 m (some k) = none := by
    simp only [hitOf]
    rw [hd0]
    simpa [Option.orElse] using hs0
  have hfirst : getWorker ws0 (some k) ⟨j, m⟩
      = (.ok w, ⟨(j + 1) % ws0.length, mapSet m k.toStr w⟩) := by
    simp only [getWorker, if_neg hlen0, hhit0, hj, stringOfId]
  refine ⟨by rw [hfirst], ?_, ?_⟩
  · rw [hfirst]
    exact (selectSeq_sticky_const k w wss ⟨(j + 1) % ws0.length, mapSet m k.toStr w⟩
      (mapGet_mapSet_self m k.toStr w) hlive).1
  · intro ws' s w' hm hnot hd' hg'
    have hlen' : ¬ ws'.length = 0 := by
      intro h0
      rw [List.length_eq_zero] at h0
      subst h0
      simp [List.get?] at hg'
    have hs' : stickyLookup ws' s.workerMap k = none := by
      unfold stickyLookup
      rw [hm]
      exact find?_beq_none_of_not_mem w ws' hnot
    have hhit' : hitOf ws' s.workerMap (some k) = none := by
      simp only [hitOf]
      rw [hd']
      simpa [Option.orElse] using hs'
    simp only [getWorker, if_neg hlen', hhit', hg', stringOfId]

/-- C5 counterexample: with live workers `{2, 3}`, the first selection for the
caller-supplied key `1` picks worker 2 (round-robin) and records the sticky
entry. After a worker with id 1 comes up — worker 2 still live — the next
selection with the same key returns worker 1, not the remembered worker 2: the
direct-id lookup takes precedence over the sticky mapping, refuting the claim
as stated. -/
theorem sticky_key_selection_cex :
    (getWorker [2, 3] (some (.num 1)) ⟨0, []⟩).1 = .ok 2
    ∧ (getWorker [1, 2, 3] (some (.num 1))
          (getWorker [2, 3] (some (.num 1)) ⟨0, []⟩).2).1 = .ok 1
    ∧ (2 : Nat) ∈ [1, 2, 3]
    ∧ (Except.ok 1 : Except String Nat) ≠ .ok 2 := by
  decide

/-- Witness for C5 (amended): key `"k"` over `{4, 6}` first selects worker 4
and stays on worker 4 across changing live sets that keep it live; and once
worker 4 is gone, a selection over `{9, 5}` falls back to round-robin,
choosing worker 9 and re-recording the sticky entry. -/
theorem sticky_key_selection_witness :
    ((getWorker [4, 6] (some (.str "k")) ⟨0, []⟩).1 = .ok 4
      ∧ (selectSeq (.str "k") [[4, 6], [9, 4]]
            (getWorker [4, 6] (some (.str "k")) ⟨0, []⟩).2).1
          = [[4, 6], [9, 4]].map (fun _ => Except.ok 4))
    ∧ getWorker [9, 5] (some (.str "k")) ⟨0, [("k", 4)]⟩
        = (.ok 9, ⟨(0 + 1) % [9, 5].length, mapSet [("k", 4)] "k" 9⟩) := by
  have h := sticky_key_selection (.str "k") [4, 6] [] 0 4 (by decide) (by decide) rfl
      [[4, 6], [9, 4]] (by decide)
  exact ⟨⟨h.1, h.2.1⟩, h.2.2 [9, 5] ⟨0, [("k", 4)]⟩ 9 (by decide) (by decide) (by decide) rfl⟩

/-! ### Claim C6 -/

/-- C6: `publish()` called from a process in the worker role fails
synchronously with the role-violation error, regardless of the channel and the
payload. -/
theorem publish_from_worker_role_violation (ws : List Nat) (c : String) (d : α) :
    publish false ws c d
      = .error "Method \"publish\" can only be called from the primary process" := rfl

/-! ### Claim C7 -/

/-- C7 (amended): when the constructor is called with no options argument at
all, the request timeout defaults to 5000 ms: every successfully transmitted
`request()` arms its deadline timer for 5000 ms, and if that timer elapses
with no reply the pending entry is removed and the future is rejected with
`'Request timeout'`. (An options object that merely omits `requestTimeout`
does NOT get the 5000 ms default — see the counterexample.) -/
theorem default_timeout_window (ws : List Nat) (disp : DispState) (tr : ReqTrackerState α)
    (c : String) (d : α) (wk : Option WKey) (rid : String) (w : Nat)
    (hw : (getWorker ws wk disp).1 = .ok w) :
    (defaultedOptions none).requestTimeout = some 5000
    ∧ setTimeoutDelay (defaultedOptions none).requestTimeout = 5000
    ∧ mapGet (requestPrimary (defaultedOptions none) ws disp tr c d wk rid).1.timers rid
        = some 5000
    ∧ applyEvent (requestPrimary (defaultedOptions none) ws disp tr c d wk rid).1
          (.timerElapses rid)
        = { (requestPrimary (defaultedOptions none) ws disp tr c d wk rid).1 with
            timers :=
              mapDelete
                (requestPrimary (defaultedOptions none) ws disp tr c d wk rid).1.timers rid,
            pendingRequests :=
              mapDelete
                (requestPrimary (defaultedOptions none) ws disp tr c d wk rid).1.pendingRequests
                rid,
            settlements :=
              (requestPrimary (defaultedOptions none) ws disp tr c d wk rid).1.settlements
                ++ [(rid, .rejected "Request timeout")] } := by
  have hdelay : setTimeoutDelay (defaultedOptions none).requestTimeout = 5000 := by decide
  have hgw : getWorker ws wk disp = (.ok w, (getWorker ws wk disp).2) := by
    cases hg2 : getWorker ws wk disp with
    | mk r disp2 =>
      rw [hg2] at hw
      simp only at hw
      simp [hw]
  have hstep : (requestPrimary (defaultedOptions none) ws disp tr c d wk rid).1
      = { tr with timers := mapSet tr.timers rid 5000,
                  pendingRequests := mapSet tr.pendingRequests rid () } := by
    unfold requestPrimary
    rw [hgw]
    simp [hdelay]
  refine ⟨rfl, hdelay, ?_, ?_⟩
  · rw [hstep]
    exact mapGet_mapSet_self tr.timers rid 5000
  · rw [hstep]
    simp [applyEvent, timeoutCallback, mapGet_mapSet_self]

/-- Witness for C7 (amended) at a concrete request over the one-worker set. -/
theorem default_timeout_window_witness :
    (defaultedOptions none).requestTimeout = some 5000
    ∧ setTimeoutDelay (defaultedOptions none).requestTimeout = 5000
    ∧ mapGet (requestPrimary (defaultedOptions none) [1] ⟨0, []⟩
          (⟨[], [], []⟩ : ReqTrackerState Nat) "c" 0 none "r").1.timers "r" = some 5000
    ∧ applyEvent (requestPrimary (defaultedOptions none) [1] ⟨0, []⟩
          (⟨[], [], []⟩ : ReqTrackerState Nat) "c" 0 none "r").1 (.timerElapses "r")
        = { (requestPrimary (defaultedOptions none) [1] ⟨0, []⟩
              (⟨[], [], []⟩ : ReqTrackerState Nat) "c" 0 none "r").1 with
            timers :=
              mapDelete (requestPrimary (defaultedOptions none) [1] ⟨0, []⟩
                (⟨[], [], []⟩ : ReqTrackerState Nat) "c" 0 none "r").1.timers "r",
            pendingRequests :=
              mapDelete (requestPrimary (defaultedOptions none) [1] ⟨0, []⟩
                (⟨[], [], []⟩ : ReqTrackerState Nat) "c" 0 none "r").1.pendingRequests "r",
            settlements :=
              (requestPrimary (defaultedOptions none) [1] ⟨0, []⟩
                (⟨[], [], []⟩ : ReqTrackerState Nat) "c" 0 none "r").1.settlements
                ++ [("r", .rejected "Request timeout")] } :=
  default_timeout_window [1] ⟨0, []⟩ ⟨[], [], []⟩ "c" 0 none "r" 1 rfl

/-- C7 counterexample: an options object that leaves `requestTimeout` unset is
a construction where the timeout is "not explicitly configured", yet the TS
default parameter does not apply (it applies only when the argument is omitted
entirely): the armed delay is Node's 1 ms fallback for an `undefined`
`setTimeout` delay, not 5000 ms. -/
theorem default_timeout_cex :
    (defaultedOptions (some { requestTimeout := none })).requestTimeout = none
    ∧ setTimeoutDelay (defaultedOptions (some { requestTimeout := none })).requestTimeout = 1
    ∧ mapGet (requestPrimary (defaultedOptions (some { requestTimeout := none })) [1] ⟨0, []⟩
          (⟨[], [], []⟩ : ReqTrackerState Nat) "c" 0 none "r").1.timers "r" = some 1
    ∧ (1 : Nat) ≠ 5000 := by
  decide

/-! ### Claim C8 -/

/-- C8 (amended): a selection that returns via the direct-id or live-sticky
lookup (`hitOf`) mutates neither the cursor nor the sticky map; a round-robin
(fallback) selection advances the cursor and ALWAYS writes the sticky map
under the stringified supplied id — which is the string `"undefined"` when no
explicit id was given (`String(undefined)`), not only when an explicit id was
supplied. -/
theorem getWorker_mutation_frame (ws : List Nat) (id : Option WKey) (s : DispState)
    (hne : ws.length ≠ 0) :
    (∀ w, hitOf ws s.workerMap id = some w → getWorker ws id s = (.ok w, s))
    ∧ (∀ w, hitOf ws s.workerMap id = none → ws.get? s.workerIndex = some w →
        getWorker ws id s
          = (.ok w, ⟨(s.workerIndex + 1) % ws.length, mapSet s.workerMap (stringOfId id) w⟩)) := by
  constructor
  · intro w hw
    simp only [getWorker, if_neg hne, hw]
  · intro w hh hg
    simp only [getWorker, if_neg hne, hh, hg]

/-- C8 counterexample: a selection with NO explicit id still writes the sticky
map — the round-robin path unconditionally executes
`workerMap.set(String(id), worker.id)`, recording the key `"undefined"` — so
the sticky map does not stay unchanged on no-id selections. -/
theorem getWorker_mutation_frame_cex :
    (getWorker [1, 2] none ⟨0, []⟩).2.workerMap = [("undefined", 1)]
    ∧ ([("undefined", 1)] : List (String × Nat)) ≠ [] := by
  decide

/-- Witness for C8 (amended): the fallback arm of the frame theorem at a
concrete no-id selection. -/
theorem getWorker_mutation_frame_witness :
    getWorker [1, 2] none ⟨0, []⟩
      = (.ok 1, ⟨(0 + 1) % [1, 2].length, mapSet [] (stringOfId none) 1⟩) :=
  (getWorker_mutation_frame [1, 2] none ⟨0, []⟩ (by decide)).2 1 rfl rfl

/-! ### Claim C9 -/

/-- C9 (amended): for a plain inbound envelope (neither `requestId` nor
`isReply`), the `ClusterIpc` `'message'` notification carries only the channel
and the payload — `handleMessage` does not include the originating worker;
only the legacy `ClusterIPC` class's primary-role listener carries the
originating child's identity alongside channel and payload. -/
theorem plain_message_emissions (c : String) (d : α) (w : Nat) (s : ReqTrackerState α) :
    (handleMessage ({ channel := c, data := d } : IpcMessage α) w s).2 = [.message c d]
    ∧ primaryOnMessage ({ channel := c, data := d } : IPCMessage α) w = .message c d w :=
  ⟨rfl, rfl⟩

/-- C9 counterexample: the consumer-visible result of processing a plain
envelope in `ClusterIpc` is identical for two distinct originating workers
(1 ≠ 2), so the `'message'` notification cannot carry the originating child's
identity; it is exactly `[message channel payload]`. -/
theorem plain_message_emissions_cex :
    (handleMessage ({ channel := "ch", data := (7 : Nat) } : IpcMessage Nat) 1
        ⟨[], [], []⟩).2
      = (handleMessage ({ channel := "ch", data := (7 : Nat) } : IpcMessage Nat) 2
        ⟨[], [], []⟩).2
    ∧ (1 : Nat) ≠ 2
    ∧ (handleMessage ({ channel := "ch", data := (7 : Nat) } : IpcMessage Nat) 1
        ⟨[], [], []⟩).2 = [.message "ch" 7] := by
  decide

/-! ### Claim C10 -/

/-- C10: an inbound envelope with `isReply` set but `requestId` unset is not
treated as a reply (no pending request is looked up or settled) nor as a
request: `handleMessage` classifies it as a plain message, emitting
`(channel, payload)` and leaving the tracker state — including the
pending-request table — unchanged. -/
theorem replyFlag_without_id_is_plain_message (msg : IpcMessage α) (w : Nat)
    (s : ReqTrackerState α) (hr : msg.isReply = some true) (hid : msg.requestId = none) :
    handleMessage msg w s = (s, [.message msg.channel msg.data]) := by
  simp [handleMessage, hid, strTruthy, boolTruthy, hr]

/-- Witness for C10: a concrete reply-flagged, id-less envelope processed over
a non-trivial tracker state is emitted as a plain message with the state
untouched. -/
theorem replyFlag_without_id_is_plain_message_witness :
    handleMessage ({ channel := "c", data := 5, isReply := some true } : IpcMessage Nat) 1
        ⟨[("q", ())], [("q", 7)], []⟩
      = (⟨[("q", ())], [("q", 7)], []⟩, [.message "c" 5]) :=
  replyFlag_without_id_is_plain_message _ 1 _ rfl rfl

end ClusterIpcModel
